import Mathlib

/-!
Shallow embedding of the Scribe `JobReconciler` (src/controllers/job_reconciler.go)
together with theorems checking the natural-language specification against it.

Go zero values are reflected in the default field values of the structures:
empty string for strings, `[]` for slices, `none` for nilable maps and
pointers, `false` for booleans. `int32`/`int64` fields are modelled as `Int`.
-/

namespace Scribe

/-- A reference to a key of a named secret, as used in `corev1.EnvVar.ValueFrom`. -/
structure SecretKeyRef where
  secretName : String
  key : String
  optional : Bool
deriving DecidableEq, Repr

/-- `corev1.EnvVar`: either a literal value or a projection from a secret. -/
structure EnvVar where
  name : String
  value : String := ""
  valueFrom : Option SecretKeyRef := none
deriving DecidableEq, Repr

/-- `corev1.VolumeMount`. -/
structure VolumeMount where
  name : String
  mountPath : String
deriving DecidableEq, Repr

/-- `corev1.Capabilities` (only the `Add` list is used by the reconciler). -/
structure Capabilities where
  add : List String
deriving DecidableEq, Repr

/-- `corev1.SecurityContext` (only the fields the reconciler sets). -/
structure SecurityContext where
  capabilities : Option Capabilities := none
  runAsUser : Option Int := none
deriving DecidableEq, Repr

/-- `corev1.VolumeSource`: the two alternatives the reconciler builds. -/
inductive VolumeSource where
  | persistentVolumeClaim (claimName : String)
  | secret (secretName : String) (defaultMode : Option Int)
deriving DecidableEq, Repr

/-- `corev1.Volume`. -/
structure Volume where
  name : String
  volumeSource : VolumeSource
deriving DecidableEq, Repr

/-- `corev1.Container` (the fields the reconciler sets). -/
structure Container where
  name : String := ""
  env : List EnvVar := []
  command : List String := []
  args : List String := []
  image : String := ""
  securityContext : Option SecurityContext := none
  volumeMounts : List VolumeMount := []
deriving DecidableEq, Repr

/-- A Go `map[string]string` modelled as an association list with distinct
keys maintained by `labelInsert`; `none` at use sites models a nil map. -/
abbrev LabelMap := List (String × String)

/-- Lookup of a key in a label map (Go `m[k]` on a string map). -/
def labelGet : LabelMap → String → Option String
  | [], _ => none
  | (a, b) :: t, k => if a = k then some b else labelGet t k

/-- Go `m[k] = v` on a string map: overwrite the binding if the key is
present, otherwise add it. -/
def labelInsert : LabelMap → String → String → LabelMap
  | [], k, v => [(k, v)]
  | (a, b) :: t, k, v =>
      if a = k then (k, v) :: t else (a, b) :: labelInsert t k v

/-- The `for k, v := range desired` loop of `Apply`: write every binding of
`desired` into `live`. -/
def labelMerge (live desired : LabelMap) : LabelMap :=
  desired.foldl (fun acc p => labelInsert acc p.1 p.2) live

/-- `corev1.PodSpec` (the fields the reconciler sets). -/
structure PodSpec where
  containers : List Container := []
  volumes : List Volume := []
  serviceAccountName : String := ""
  restartPolicy : String := ""
deriving DecidableEq, Repr

/-- `corev1.PodTemplateSpec`: labels (a nilable map) plus the pod spec. -/
structure PodTemplateSpec where
  labels : Option LabelMap := none
  spec : PodSpec := {}
deriving DecidableEq, Repr

/-- `batchv1.JobSpec` (the fields the reconciler reads or writes);
`parallelism` and `backoffLimit` are `*int32` in Go, hence `Option Int`. -/
structure JobSpec where
  parallelism : Option Int := none
  backoffLimit : Option Int := none
  template : PodTemplateSpec := {}
deriving DecidableEq, Repr

/-- `batchv1.JobStatus` (the fields the reconciler reads). -/
structure JobStatus where
  failed : Int := 0
  succeeded : Int := 0
deriving DecidableEq, Repr

/-- `batchv1.Job`. -/
structure Job where
  spec : JobSpec := {}
  status : JobStatus := {}
deriving DecidableEq, Repr

/-- The `JobReconciler` state that the embedded operations act on: the
desired pod template and the pause flag.  The logger, scheme and owner are
external collaborators; the live `Job` is passed explicitly instead of being
held by pointer. -/
structure JobReconciler where
  desired : PodTemplateSpec := {}
  paused : Bool := false
deriving DecidableEq, Repr

/-- `NewJobReconciler`: desired template and pause flag start at their zero
values. -/
def NewJobReconciler : JobReconciler := {}

/-- `SetPause`. -/
def SetPause (jr : JobReconciler) (pause : Bool) : JobReconciler :=
  { jr with paused := pause }

/-- `SetServiceAccount`. -/
def SetServiceAccount (jr : JobReconciler) (saName : String) : JobReconciler :=
  { jr with desired := { jr.desired with
      spec := { jr.desired.spec with serviceAccountName := saName } } }

/-- `corev1.RestartPolicyNever`. -/
def RestartPolicyNever : String := "Never"

/-- `metav1.DeletePropagationBackground`. -/
def DeletePropagationBackground : String := "Background"

/-- `Apply` (the mutation function passed to `CreateOrUpdate`), after the
owner-reference step has succeeded: merge labels additively (initialising a
nil label map first), pin the backoff limit to 2, force restart policy
`Never`, set parallelism from the pause flag, and replace the container
list, service-account name and volume list wholesale from the desired
template. -/
def Apply (jr : JobReconciler) (job : Job) : Job :=
  let liveLabels : LabelMap := job.spec.template.labels.getD []
  let merged : LabelMap := labelMerge liveLabels (jr.desired.labels.getD [])
  { job with spec := { job.spec with
      backoffLimit := some 2
      parallelism := some (if jr.paused then 0 else 1)
      template := { job.spec.template with
        labels := some merged
        spec := { job.spec.template.spec with
          restartPolicy := RestartPolicyNever
          containers := jr.desired.spec.containers
          serviceAccountName := jr.desired.spec.serviceAccountName
          volumes := jr.desired.spec.volumes } } } }

/-- Result of one `Reconcile` call: the job after the mutation, whether a
delete was issued (and with which propagation policy), the boolean returned
to the caller, and the returned error. -/
structure ReconcileOutcome where
  job : Job
  deleted : Bool
  deletePropagation : Option String
  keepGoing : Bool
  err : Option String
deriving DecidableEq, Repr

/-- `Reconcile`: the orchestrator client is opaque, so the outcome of
`CreateOrUpdate` (an error or none) and of `Delete` are inputs.  On a
create-or-update error, return `(false, err)`.  Otherwise the job now holds
the applied state; if its failed-attempt count has reached the backoff
limit, issue a background-propagation delete and return `(false, deleteErr)`;
otherwise return `(true, nil)`. -/
def Reconcile (jr : JobReconciler) (job : Job)
    (createOrUpdateErr : Option String) (deleteErr : Option String) :
    ReconcileOutcome :=
  match createOrUpdateErr with
  | some e =>
      { job := job, deleted := false, deletePropagation := none,
        keepGoing := false, err := some e }
  | none =>
      let j := Apply jr job
      if (j.spec.backoffLimit.getD 0) ≤ j.status.failed then
        { job := j, deleted := true,
          deletePropagation := some DeletePropagationBackground,
          keepGoing := false, err := deleteErr }
      else
        { job := j, deleted := false, deletePropagation := none,
          keepGoing := true, err := none }

/-- Modelled from the spec: the fixed, profile-independent mount path at
which every mover mounts the data volume.  The constant is defined in a
repository file outside `src/`; its literal value is not fixed by the spec,
only that it is one shared constant. -/
def mountPath : String := "/data"

/-- Modelled from the spec: the shared name of the data volume, defined
outside `src/`. -/
def dataVolumeName : String := "data"

/-- Modelled from the spec: name of the rclone-config secret volume,
defined outside `src/`. -/
def rcloneSecret : String := "rclone-secret"

/-- Modelled from the spec: name of the restic cache volume, defined
outside `src/`. -/
def resticCache : String := "cache"

/-- Modelled from the spec: the fixed mount path of the restic cache
volume, distinct from the data mount path, defined outside `src/`. -/
def resticCacheMountPath : String := "/restic-cache"

/-- Modelled from the spec: the rclone mover container image, defined
outside `src/`. -/
def RcloneContainerImage : String := "quay.io/backube/scribe-mover-rclone"

/-- Modelled from the spec: the restic mover container image, defined
outside `src/`. -/
def ResticContainerImage : String := "quay.io/backube/scribe-mover-restic"

/-- Modelled from the spec: the rsync mover container image, defined
outside `src/`. -/
def RsyncContainerImage : String := "quay.io/backube/scribe-mover-rsync"

/-- Modelled from the spec (§4.1 Environment Projection): `envFromSecret`
is defined outside `src/`; it builds one environment binding that resolves
`key` out of the secret named `secretName`, tolerating a missing key iff
`optional` is true. -/
def envFromSecret (secretName key : String) (optional : Bool) : EnvVar :=
  { name := key, valueFrom := some ⟨secretName, key, optional⟩ }

/-- `ConfigureRclone`: set the whole desired pod spec for the rclone
mover. -/
def ConfigureRclone (jr : JobReconciler)
    (isSource : Bool) (dataPVCName destinationPath configSection
     rcloneSecretName : String) : JobReconciler :=
  let runAsUser : Int := 0
  let secretMode : Int := 0o600
  let direction : String := if isSource then "source" else "destination"
  { jr with desired := { jr.desired with spec := {
      containers := [{
        name := "rclone"
        env := [
          { name := "RCLONE_DEST_PATH", value := destinationPath },
          { name := "DIRECTION", value := direction },
          { name := "RCLONE_CONFIG", value := "/rclone-config/rclone.conf" },
          { name := "RCLONE_CONFIG_SECTION", value := configSection },
          { name := "MOUNT_PATH", value := mountPath }]
        command := ["/bin/bash", "-c", "./active.sh"]
        image := RcloneContainerImage
        securityContext := some { runAsUser := some runAsUser }
        volumeMounts := [
          { name := dataVolumeName, mountPath := mountPath },
          { name := rcloneSecret, mountPath := "/rclone-config" }] }]
      volumes := [
        { name := dataVolumeName,
          volumeSource := .persistentVolumeClaim dataPVCName },
        { name := rcloneSecret,
          volumeSource := .secret rcloneSecretName (some secretMode) }] } } }

/-- `type ResticAction string`. -/
abbrev ResticAction := String

/-- `BackupOnly`. -/
def BackupOnly : ResticAction := "BackupOnly"

/-- `BackupAndPrune`. -/
def BackupAndPrune : ResticAction := "BackupAndPrune"

/-- `Restore`. -/
def Restore : ResticAction := "Restore"

/-- The action-selection steps at the top of `ConfigureRestic`: start from
`["backup"]`, then two successive overwriting tests. -/
def resticActions (action : ResticAction) : List String :=
  let actions := ["backup"]
  let actions := if action == BackupAndPrune then ["backup", "prune"] else actions
  if action == Restore then ["restore"] else actions

/-- `ConfigureRestic`: set the whole desired pod spec for the restic
mover. -/
def ConfigureRestic (jr : JobReconciler)
    (action : ResticAction)
    (forgetOptions dataPVCName cachePVCName resticSecretName : String) :
    JobReconciler :=
  let runAsUser : Int := 0
  { jr with desired := { jr.desired with spec := {
      containers := [{
        name := "restic"
        env := [
          { name := "FORGET_OPTIONS", value := forgetOptions },
          { name := "DATA_DIR", value := mountPath },
          { name := "RESTIC_CACHE_DIR", value := resticCacheMountPath },
          envFromSecret resticSecretName "RESTIC_REPOSITORY" false,
          envFromSecret resticSecretName "RESTIC_PASSWORD" false,
          envFromSecret resticSecretName "AWS_ACCESS_KEY_ID" true,
          envFromSecret resticSecretName "AWS_SECRET_ACCESS_KEY" true,
          envFromSecret resticSecretName "AWS_DEFAULT_REGION" true,
          envFromSecret resticSecretName "ST_AUTH" true,
          envFromSecret resticSecretName "ST_USER" true,
          envFromSecret resticSecretName "ST_KEY" true,
          envFromSecret resticSecretName "OS_AUTH_URL" true,
          envFromSecret resticSecretName "OS_REGION_NAME" true,
          envFromSecret resticSecretName "OS_USERNAME" true,
          envFromSecret resticSecretName "OS_USER_ID" true,
          envFromSecret resticSecretName "OS_PASSWORD" true,
          envFromSecret resticSecretName "OS_TENANT_ID" true,
          envFromSecret resticSecretName "OS_TENANT_NAME" true,
          envFromSecret resticSecretName "OS_USER_DOMAIN_NAME" true,
          envFromSecret resticSecretName "OS_USER_DOMAIN_ID" true,
          envFromSecret resticSecretName "OS_PROJECT_NAME" true,
          envFromSecret resticSecretName "OS_PROJECT_DOMAIN_NAME" true,
          envFromSecret resticSecretName "OS_PROJECT_DOMAIN_ID" true,
          envFromSecret resticSecretName "OS_TRUST_ID" true,
          envFromSecret resticSecretName "OS_APPLICATION_CREDENTIAL_ID" true,
          envFromSecret resticSecretName "OS_APPLICATION_CREDENTIAL_NAME" true,
          envFromSecret resticSecretName "OS_APPLICATION_CREDENTIAL_SECRET" true,
          envFromSecret resticSecretName "OS_STORAGE_URL" true,
          envFromSecret resticSecretName "OS_AUTH_TOKEN" true,
          envFromSecret resticSecretName "B2_ACCOUNT_ID" true,
          envFromSecret resticSecretName "B2_ACCOUNT_KEY" true,
          envFromSecret resticSecretName "AZURE_ACCOUNT_NAME" true,
          envFromSecret resticSecretName "AZURE_ACCOUNT_KEY" true,
          envFromSecret resticSecretName "GOOGLE_PROJECT_ID" true,
          envFromSecret resticSecretName "GOOGLE_APPLICATION_CREDENTIALS" true]
        command := ["/entry.sh"]
        args := resticActions action
        image := ResticContainerImage
        securityContext := some { runAsUser := some runAsUser }
        volumeMounts := [
          { name := dataVolumeName, mountPath := mountPath },
          { name := resticCache, mountPath := resticCacheMountPath }] }]
      volumes := [
        { name := dataVolumeName,
          volumeSource := .persistentVolumeClaim dataPVCName },
        { name := resticCache,
          volumeSource := .persistentVolumeClaim cachePVCName }] } } }

/-- `ConfigureRsync`: set the desired labels and the whole desired pod spec
for the rsync mover. -/
def ConfigureRsync (jr : JobReconciler)
    (labels : Option LabelMap) (isSource : Bool)
    (dataPVCName sshSecretName : String) : JobReconciler :=
  let runAsUser : Int := 0
  let secretMode : Int := 0o600
  let command : List String :=
    if isSource then ["/bin/bash", "-c", "/source.sh"]
    else ["/bin/bash", "-c", "/destination.sh"]
  { jr with desired := {
      labels := labels
      spec := {
        containers := [{
          name := "rsync"
          command := command
          image := RsyncContainerImage
          securityContext := some {
            capabilities := some { add := ["AUDIT_WRITE", "SYS_CHROOT"] }
            runAsUser := some runAsUser }
          volumeMounts := [
            { name := dataVolumeName, mountPath := mountPath },
            { name := "keys", mountPath := "/keys" }] }]
        volumes := [
          { name := dataVolumeName,
            volumeSource := .persistentVolumeClaim dataPVCName },
          { name := "keys",
            volumeSource := .secret sshSecretName (some secretMode) }] } } }

/-- `AddEnv` appends one environment variable to the first container of the
desired template.  In Go the index-0 access panics when no Configure* call
has populated the container list; the total embedding returns `none`
there. -/
def AddEnv (jr : JobReconciler) (name value : String) :
    Option JobReconciler :=
  match jr.desired.spec.containers with
  | [] => none
  | c :: rest =>
      some { jr with desired := { jr.desired with
        spec := { jr.desired.spec with
          containers :=
            { c with env := c.env ++ [{ name := name, value := value }] }
              :: rest } } }

/-- Left-biased choice on optional label values, used to state the
semantics of the additive label merge. -/
def optOr (a b : Option String) : Option String :=
  match a with
  | some v => some v
  | none => b

/-- Overwrite the parallelism field of a job, used to state that the pause
flag influences no other field. -/
def setParallelism (j : Job) (p : Option Int) : Job :=
  { j with spec := { j.spec with parallelism := p } }

/-! ## Helper lemmas -/

theorem labelGet_labelInsert (m : LabelMap) (k v k' : String) :
    labelGet (labelInsert m k v) k' = if k = k' then some v else labelGet m k' := by
  induction m with
  | nil => simp [labelInsert, labelGet]
  | cons p t ih =>
      obtain ⟨a, b⟩ := p
      by_cases hak : a = k
      · subst hak
        by_cases h : a = k' <;> simp [labelInsert, labelGet, h]
      · by_cases h : a = k'
        · subst h
          have hne : k ≠ a := fun hc => hak hc.symm
          simp [labelInsert, labelGet, hak, hne]
        · simp [labelInsert, labelGet, hak, h, ih]

theorem labelGet_eq_none_of_notMem (m : LabelMap) (k : String)
    (h : k ∉ m.map Prod.fst) : labelGet m k = none := by
  induction m with
  | nil => rfl
  | cons p t ih =>
      obtain ⟨a, b⟩ := p
      simp only [List.map_cons, List.mem_cons, not_or] at h
      have hne : a ≠ k := fun hc => h.1 hc.symm
      simp [labelGet, hne, ih h.2]

theorem labelGet_labelMerge (d : LabelMap) (live : LabelMap)
    (hd : (d.map Prod.fst).Nodup) (k : String) :
    labelGet (labelMerge live d) k = optOr (labelGet d k) (labelGet live k) := by
  induction d generalizing live with
  | nil => simp [labelMerge, labelGet, optOr]
  | cons p t ih =>
      obtain ⟨a, b⟩ := p
      simp only [List.map_cons, List.nodup_cons] at hd
      have step : labelMerge live ((a, b) :: t) = labelMerge (labelInsert live a b) t := rfl
      rw [step, ih (labelInsert live a b) hd.2]
      by_cases h : a = k
      · subst h
        rw [labelGet_eq_none_of_notMem t a hd.1]
        simp [labelGet, optOr, labelGet_labelInsert]
      · simp only [labelGet, h, if_false]
        cases hg : labelGet t k with
        | some v => simp [optOr]
        | none => simp [optOr, labelGet_labelInsert, h]

theorem Apply_backoffLimit (jr : JobReconciler) (job : Job) :
    (Apply jr job).spec.backoffLimit = some 2 := rfl

theorem Apply_status (jr : JobReconciler) (job : Job) :
    (Apply jr job).status = job.status := rfl

/-! ## Claims -/

/-- C1: after a successful create-or-update, a job whose failed-attempt
count equals the fixed retry budget (2) is deleted with background
propagation and `Reconcile` returns `(false, nil)` (when the delete
succeeds); a job whose failed count is one below the budget (1) is not
deleted and `Reconcile` returns `(true, nil)`. -/
theorem claim1_retry_budget (jr : JobReconciler) (job : Job)
    (deleteErr : Option String) :
    (job.status.failed = 2 → deleteErr = none →
      Reconcile jr job none deleteErr =
        { job := Apply jr job, deleted := true,
          deletePropagation := some DeletePropagationBackground,
          keepGoing := false, err := none }) ∧
    (job.status.failed = 1 →
      Reconcile jr job none deleteErr =
        { job := Apply jr job, deleted := false, deletePropagation := none,
          keepGoing := true, err := none }) := by
  constructor
  · intro h2 hdel
    subst hdel
    simp [Reconcile, Apply_backoffLimit, Apply_status, h2]
  · intro h1
    simp [Reconcile, Apply_backoffLimit, Apply_status, h1]

/-- Witness for C1 at a fresh reconciler and jobs with failed counts 2
and 1. -/
theorem claim1_retry_budget_witness :
    Reconcile NewJobReconciler { status := { failed := 2 } } none none =
      { job := Apply NewJobReconciler { status := { failed := 2 } },
        deleted := true,
        deletePropagation := some DeletePropagationBackground,
        keepGoing := false, err := none } ∧
    Reconcile NewJobReconciler { status := { failed := 1 } } none none =
      { job := Apply NewJobReconciler { status := { failed := 1 } },
        deleted := false, deletePropagation := none,
        keepGoing := true, err := none } :=
  ⟨(claim1_retry_budget NewJobReconciler { status := { failed := 2 } } none).1 rfl rfl,
   (claim1_retry_budget NewJobReconciler { status := { failed := 1 } } none).2 rfl⟩

/-- C2: the label merge performed by `Apply` is additive: for every key,
the post-merge labels hold the desired value when the key is in the desired
set and the live value otherwise, so desired bindings are added and no live
key is removed. -/
theorem claim2_additive_label_merge (jr : JobReconciler) (job : Job)
    (hd : ((jr.desired.labels.getD []).map Prod.fst).Nodup) (k : String) :
    labelGet (((Apply jr job).spec.template.labels).getD []) k =
      optOr (labelGet (jr.desired.labels.getD []) k)
            (labelGet (job.spec.template.labels.getD []) k) := by
  have happ : (Apply jr job).spec.template.labels =
      some (labelMerge (job.spec.template.labels.getD [])
                       (jr.desired.labels.getD [])) := rfl
  rw [happ, Option.getD_some]
  exact labelGet_labelMerge _ _ hd k

/-- Witness for C2: live labels `{a:1}`, desired labels `{b:2}`; the
post-merge labels equal `{a:1, b:2}`. -/
theorem claim2_additive_label_merge_witness :
    labelGet (((Apply { desired := { labels := some [("b", "2")] } }
        { spec := { template := { labels := some [("a", "1")] } } }).spec.template.labels).getD []) "a"
      = some "1" ∧
    labelGet (((Apply { desired := { labels := some [("b", "2")] } }
        { spec := { template := { labels := some [("a", "1")] } } }).spec.template.labels).getD []) "b"
      = some "2" ∧
    (Apply { desired := { labels := some [("b", "2")] } }
        { spec := { template := { labels := some [("a", "1")] } } }).spec.template.labels
      = some [("a", "1"), ("b", "2")] :=
  ⟨claim2_additive_label_merge
      { desired := { labels := some [("b", "2")] } }
      { spec := { template := { labels := some [("a", "1")] } } }
      (by decide) "a",
   claim2_additive_label_merge
      { desired := { labels := some [("b", "2")] } }
      { spec := { template := { labels := some [("a", "1")] } } }
      (by decide) "b",
   rfl⟩

/-- C3: `Apply` replaces the container list, volume list and
service-account name of the job template wholesale with those of the
desired template, whatever they were before, so any external modification
to these three fields is reverted on the next reconcile. -/
theorem claim3_wholesale_replacement (jr : JobReconciler) (job : Job) :
    (Apply jr job).spec.template.spec.containers = jr.desired.spec.containers ∧
    (Apply jr job).spec.template.spec.volumes = jr.desired.spec.volumes ∧
    (Apply jr job).spec.template.spec.serviceAccountName =
      jr.desired.spec.serviceAccountName :=
  ⟨rfl, rfl, rfl⟩

/-- C4: each of the three mover builders produces a desired template with
exactly one container, and that container mounts the data volume at the
fixed, profile-independent mount path. -/
theorem claim4_single_container_data_mount :
    (∀ (jr : JobReconciler) (isSource : Bool)
        (dataPVCName destinationPath configSection rcloneSecretName : String),
      ∃ c, (ConfigureRclone jr isSource dataPVCName destinationPath
              configSection rcloneSecretName).desired.spec.containers = [c] ∧
        (⟨dataVolumeName, mountPath⟩ : VolumeMount) ∈ c.volumeMounts) ∧
    (∀ (jr : JobReconciler) (action : ResticAction)
        (forgetOptions dataPVCName cachePVCName resticSecretName : String),
      ∃ c, (ConfigureRestic jr action forgetOptions dataPVCName cachePVCName
              resticSecretName).desired.spec.containers = [c] ∧
        (⟨dataVolumeName, mountPath⟩ : VolumeMount) ∈ c.volumeMounts) ∧
    (∀ (jr : JobReconciler) (labels : Option LabelMap) (isSource : Bool)
        (dataPVCName sshSecretName : String),
      ∃ c, (ConfigureRsync jr labels isSource dataPVCName
              sshSecretName).desired.spec.containers = [c] ∧
        (⟨dataVolumeName, mountPath⟩ : VolumeMount) ∈ c.volumeMounts) := by
  refine ⟨?_, ?_, ?_⟩ <;> intros <;>
    exact ⟨_, rfl, List.mem_cons_self _ _⟩

/-- C5: the pause flag set via `SetPause` determines the job's parallelism
after `Apply` (0 when paused, 1 when not), no other parallelism value is
ever produced, and the flag influences no other field of the job. -/
theorem claim5_pause_gate (jr : JobReconciler) (job : Job) :
    (Apply (SetPause jr true) job).spec.parallelism = some 0 ∧
    (Apply (SetPause jr false) job).spec.parallelism = some 1 ∧
    ((Apply jr job).spec.parallelism = some 0 ∨
      (Apply jr job).spec.parallelism = some 1) ∧
    setParallelism (Apply (SetPause jr true) job) none =
      setParallelism (Apply (SetPause jr false) job) none := by
  refine ⟨rfl, rfl, ?_, rfl⟩
  cases h : jr.paused <;> simp [Apply, h]

/-- C6: the restic builder's container arguments are exactly `["backup"]`
for `BackupOnly`, `["backup", "prune"]` for `BackupAndPrune` and
`["restore"]` for `Restore`; the three action modes are distinct, so
exactly one of the three mutually exclusive paths is selected. -/
theorem claim6_restic_actions (jr : JobReconciler)
    (forgetOptions dataPVCName cachePVCName resticSecretName : String) :
    (ConfigureRestic jr BackupOnly forgetOptions dataPVCName cachePVCName
        resticSecretName).desired.spec.containers.map Container.args
      = [["backup"]] ∧
    (ConfigureRestic jr BackupAndPrune forgetOptions dataPVCName cachePVCName
        resticSecretName).desired.spec.containers.map Container.args
      = [["backup", "prune"]] ∧
    (ConfigureRestic jr Restore forgetOptions dataPVCName cachePVCName
        resticSecretName).desired.spec.containers.map Container.args
      = [["restore"]] ∧
    BackupOnly ≠ BackupAndPrune ∧ BackupOnly ≠ Restore ∧
    BackupAndPrune ≠ Restore :=
  ⟨rfl, rfl, rfl, by decide, by decide, by decide⟩

/-- C7: the rsync builder's container command is the source-mode script
invocation when `isSource` is true and the destination-mode script
invocation when it is false. -/
theorem claim7_rsync_command (jr : JobReconciler) (labels : Option LabelMap)
    (dataPVCName sshSecretName : String) :
    (ConfigureRsync jr labels true dataPVCName
        sshSecretName).desired.spec.containers.map Container.command
      = [["/bin/bash", "-c", "/source.sh"]] ∧
    (ConfigureRsync jr labels false dataPVCName
        sshSecretName).desired.spec.containers.map Container.command
      = [["/bin/bash", "-c", "/destination.sh"]] :=
  ⟨rfl, rfl⟩

/-- C8 counterexample: the claim says the rsync container runs as an
unprivileged (non-root) numeric user, but at a concrete input the only
container's run-as user is 0, i.e. root, so no nonzero run-as user is
specified. -/
theorem claim8_counterexample :
    ¬ ∃ u : Int, u ≠ 0 ∧
      ((ConfigureRsync NewJobReconciler none true "datapvc"
          "sshkeys").desired.spec.containers.map
        (fun c => c.securityContext.bind SecurityContext.runAsUser))
        = [some u] := by
  rintro ⟨u, hu, h⟩
  simp [ConfigureRsync, NewJobReconciler] at h
  exact hu h.symm

/-- C8 amended: the rsync builder's single container specifies numeric
run-as user 0 (root) and adds exactly the two POSIX capabilities
AUDIT_WRITE and SYS_CHROOT. -/
theorem claim8_rsync_security (jr : JobReconciler) (labels : Option LabelMap)
    (isSource : Bool) (dataPVCName sshSecretName : String) :
    (ConfigureRsync jr labels isSource dataPVCName
        sshSecretName).desired.spec.containers.map Container.securityContext
      = [some { capabilities := some { add := ["AUDIT_WRITE", "SYS_CHROOT"] },
                runAsUser := some 0 }] := rfl

/-- C9: `AddEnv` fails (out-of-bounds first-container access) exactly when
the desired container list is empty; when a container is present it appends
exactly one environment binding to the first container's environment and
changes nothing else. -/
theorem claim9_addenv_bounds (jr : JobReconciler) (n v : String) :
    (AddEnv jr n v = none ↔ jr.desired.spec.containers = []) ∧
    (∀ c rest, jr.desired.spec.containers = c :: rest →
      AddEnv jr n v = some { jr with desired := { jr.desired with
        spec := { jr.desired.spec with containers :=
          { c with env := c.env ++ [{ name := n, value := v }] } :: rest } } }) := by
  obtain ⟨⟨labels, conts, vols, sa, rp⟩, paused⟩ := jr
  cases conts with
  | nil =>
      refine ⟨by simp [AddEnv], ?_⟩
      intro c rest h
      exact absurd h (by simp)
  | cons c0 t =>
      refine ⟨by simp [AddEnv], ?_⟩
      intro c rest h
      simp only [List.cons.injEq] at h
      obtain ⟨rfl, rfl⟩ := h
      rfl

/-- Witness for C9: appending an environment variable to a desired template
holding one container. -/
theorem claim9_addenv_bounds_witness :
    AddEnv { desired := { spec := { containers := [{ name := "rsync" }] } } }
        "X" "1" =
      some { desired := { spec := { containers :=
        [{ name := "rsync",
           env := [{ name := "X", value := "1" }] }] } } } :=
  (claim9_addenv_bounds
      { desired := { spec := { containers := [{ name := "rsync" }] } } }
      "X" "1").2 { name := "rsync" } [] rfl

/-- C10: every Configure* builder assigns the entire desired pod spec, so a
service-account name set before the builder, or an environment variable
added before it, is discarded by the builder call; a service-account name
set after the builder persists. -/
theorem claim10_builders_overwrite :
    (∀ (jr : JobReconciler) (sa : String) (isSource : Bool) (p d c r : String),
      ConfigureRclone (SetServiceAccount jr sa) isSource p d c r =
        ConfigureRclone jr isSource p d c r) ∧
    (∀ (jr : JobReconciler) (sa : String) (a : ResticAction) (f p q s : String),
      ConfigureRestic (SetServiceAccount jr sa) a f p q s =
        ConfigureRestic jr a f p q s) ∧
    (∀ (jr : JobReconciler) (sa : String) (labels : Option LabelMap)
        (isSource : Bool) (p s : String),
      ConfigureRsync (SetServiceAccount jr sa) labels isSource p s =
        ConfigureRsync jr labels isSource p s) ∧
    (∀ (jr jr' : JobReconciler) (n v : String), AddEnv jr n v = some jr' →
      (∀ (isSource : Bool) (p d c r : String),
        ConfigureRclone jr' isSource p d c r =
          ConfigureRclone jr isSource p d c r) ∧
      (∀ (a : ResticAction) (f p q s : String),
        ConfigureRestic jr' a f p q s = ConfigureRestic jr a f p q s) ∧
      (∀ (labels : Option LabelMap) (isSource : Bool) (p s : String),
        ConfigureRsync jr' labels isSource p s =
          ConfigureRsync jr labels isSource p s)) ∧
    (∀ (jr : JobReconciler) (sa : String) (isSource : Bool) (p d c r : String),
      (SetServiceAccount (ConfigureRclone jr isSource p d c r)
        sa).desired.spec.serviceAccountName = sa) := by
  refine ⟨fun jr sa _ _ _ _ _ => rfl,
          fun jr sa _ _ _ _ _ => rfl,
          fun jr sa _ _ _ _ => rfl,
          ?_,
          fun jr sa _ _ _ _ _ => rfl⟩
  intro jr jr' n v h
  obtain ⟨⟨labels, conts, vols, sa, rp⟩, paused⟩ := jr
  cases conts with
  | nil => simp [AddEnv] at h
  | cons c0 t =>
      simp only [AddEnv, Option.some.injEq] at h
      subst h
      exact ⟨fun _ _ _ _ _ => rfl, fun _ _ _ _ _ => rfl,
             fun _ _ _ _ => rfl⟩

/-- Witness for C10: discharging the AddEnv hypothesis at a one-container
reconciler, and the two service-account conjuncts at concrete strings. -/
theorem claim10_builders_overwrite_witness :
    ConfigureRclone (SetServiceAccount NewJobReconciler "sa") true
        "pvc" "dest" "sect" "rsec" =
      ConfigureRclone NewJobReconciler true "pvc" "dest" "sect" "rsec" ∧
    ConfigureRsync { desired := { spec := { containers :=
          [{ name := "m", env := [{ name := "X", value := "1" }] }] } } }
        none true "pvc" "ssec" =
      ConfigureRsync { desired := { spec := { containers :=
          [{ name := "m" }] } } } none true "pvc" "ssec" ∧
    (SetServiceAccount
        (ConfigureRclone NewJobReconciler true "pvc" "dest" "sect" "rsec")
        "sa").desired.spec.serviceAccountName = "sa" :=
  ⟨claim10_builders_overwrite.1 NewJobReconciler "sa" true "pvc" "dest" "sect" "rsec",
   (claim10_builders_overwrite.2.2.2.1
      { desired := { spec := { containers := [{ name := "m" }] } } }
      _ "X" "1" rfl).2.2 none true "pvc" "ssec",
   claim10_builders_overwrite.2.2.2.2 NewJobReconciler "sa" true "pvc" "dest" "sect" "rsec"⟩

end Scribe
